import Mathlib

/-!
Verification of the Minol Energy portal client
(`custom_components/minol_energy`): a shallow embedding of the API client
(`api.py`), the dashboard extraction helpers (`sensor.py`) and the
aggregation step, together with theorems settling the specification's
claims about them.

JSON values are modelled by the inductive `JValue`; Python dictionaries are
association lists with distinct keys (the JSON decoder never produces
duplicates).  Python numbers are modelled as exact signed decimals
(`PyNum`): the embedded code performs no arithmetic on numbers — it only
parses them, compares them and tests truthiness — so this representation is
exact for every claim under study (all of which concern the structure of a
result: number vs. "unknown" vs. raised exception).  Python exceptions are
modelled by the `Exc` type and fallible code returns `Except Exc _`.
-/

/-- An exact signed decimal number, `(-1)^neg * mant / 10^frac`: the value
of a parsed numeric literal.  The decimal literals appearing in portal
data (`"12"`, `"7.5"`, …) convert to Python floats exactly, so the decimal
model loses nothing for the claims. -/
structure PyNum where
  neg : Bool
  mant : Nat
  frac : Nat
  deriving Repr, DecidableEq

/-- The signed mantissa. -/
def PyNum.toInt (a : PyNum) : Int :=
  if a.neg then -(a.mant : Int) else (a.mant : Int)

/-- Numeric equality of two decimals (cross-multiplied, so `0.50 == 0.5`
and `-0 == 0`, as Python number equality behaves). -/
def PyNum.numEq (a b : PyNum) : Bool :=
  a.toInt * (10 : Int) ^ b.frac == b.toInt * (10 : Int) ^ a.frac

/-- The rational value denoted by a `PyNum` (used to state claims in
familiar terms; the embedded code itself never computes with it). -/
def PyNum.toRat (a : PyNum) : ℚ :=
  (a.toInt : ℚ) / (10 : ℚ) ^ a.frac

/-- The decimal for a natural number. -/
def PyNum.ofNat (n : Nat) : PyNum := ⟨false, n, 0⟩

/-- A JSON value (the shape of every portal response body and of every
dashboard block handed to the extraction helpers). -/
inductive JValue where
  | null
  | bool (b : Bool)
  | num (n : PyNum)
  | str (s : String)
  | arr (xs : List JValue)
  | obj (kvs : List (String × JValue))

/-- The exceptions that the embedded code can raise: the two exception
classes declared in `api.py`, the `json.JSONDecodeError` that
`json.loads` raises on malformed text, and the built-in Python exceptions
relevant to `sensor.py` and `api.py`. -/
inductive Exc where
  | minolAuthError
  | minolConnectionError
  | jsonDecodeError
  | keyError
  | indexError
  | typeError
  | valueError
  | attributeError
  deriving Repr, DecidableEq

/-- Python truthiness of a JSON value: `None`, `False`, `0`, `""`, `[]`
and `{}` are falsy, everything else truthy. -/
def JValue.truthy : JValue → Bool
  | .null => false
  | .bool b => b
  | .num n => n.mant != 0
  | .str s => s != ""
  | .arr xs => !xs.isEmpty
  | .obj kvs => !kvs.isEmpty

mutual

/-- Python `==` on JSON values.  Booleans compare equal to the numbers
`0`/`1` (as in CPython); values of otherwise different types are unequal. -/
def JValue.pyEq : JValue → JValue → Bool
  | .null, .null => true
  | .bool a, .bool b => a == b
  | .bool a, .num q => PyNum.numEq (.ofNat (if a then 1 else 0)) q
  | .num q, .bool a => PyNum.numEq q (.ofNat (if a then 1 else 0))
  | .num a, .num b => PyNum.numEq a b
  | .str a, .str b => a == b
  | .arr a, .arr b => JValue.pyEqList a b
  | .obj a, .obj b => JValue.pyEqObj a b
  | _, _ => false

/-- Elementwise Python `==` on lists. -/
def JValue.pyEqList : List JValue → List JValue → Bool
  | [], [] => true
  | a :: as_, b :: bs => JValue.pyEq a b && JValue.pyEqList as_ bs
  | _, _ => false

/-- Python `==` on dicts, keys taken in insertion order (our objects carry
distinct keys, so order-sensitive comparison is adequate for the claims). -/
def JValue.pyEqObj : List (String × JValue) → List (String × JValue) → Bool
  | [], [] => true
  | (k, v) :: as_, (k', v') :: bs =>
      k == k' && JValue.pyEq v v' && JValue.pyEqObj as_ bs
  | _, _ => false

end

/-- Python `d.get(key, default)`: defined on dicts, an `AttributeError`
on every other value (only mappings have a `.get` method). -/
def JValue.get (v : JValue) (key : String) (dflt : JValue) : Except Exc JValue :=
  match v with
  | .obj kvs =>
      match kvs.find? (fun kv => kv.1 == key) with
      | some kv => .ok kv.2
      | none => .ok dflt
  | _ => .error .attributeError

/-- Python `d[key]` with a string key: `KeyError` when the key is missing
from a dict, `TypeError` on every non-dict value (string indices of a
list/str raise `TypeError`, and null/bool/num are not subscriptable). -/
def JValue.getItem (v : JValue) (key : String) : Except Exc JValue :=
  match v with
  | .obj kvs =>
      match kvs.find? (fun kv => kv.1 == key) with
      | some kv => .ok kv.2
      | none => .error .keyError
  | _ => .error .typeError

/-- Python iteration `for item in v`: lists yield their elements, strings
their characters (as one-character strings), dicts their keys; the
remaining values are not iterable and raise `TypeError`. -/
def JValue.pyIter (v : JValue) : Except Exc (List JValue) :=
  match v with
  | .arr xs => .ok xs
  | .str s => .ok (s.toList.map (fun c => .str (String.mk [c])))
  | .obj kvs => .ok (kvs.map (fun kv => .str kv.1))
  | _ => .error .typeError

/-- Python `str.strip()`: remove whitespace from both ends. -/
def stripWs (cs : List Char) : List Char :=
  ((cs.dropWhile Char.isWhitespace).reverse.dropWhile Char.isWhitespace).reverse

/-- Python `s.replace("%", "")`: since the pattern is the single character
`"%"`, replacing it by the empty string removes every `'%'`. -/
def removePct (cs : List Char) : List Char :=
  cs.filter (fun c => c != '%')

/-- Digit string to natural number. -/
def digitsToNat (cs : List Char) : Nat :=
  cs.foldl (fun a c => a * 10 + (c.toNat - 48)) 0

/-- Parse an unsigned decimal literal (`"12"`, `"7.5"`, `"12."`, `".5"`)
into mantissa and scale; `none` when the text is not such a literal. -/
def parseDecCore (cs : List Char) : Option (Nat × Nat) :=
  let intPart := cs.takeWhile Char.isDigit
  let rest := cs.dropWhile Char.isDigit
  match rest with
  | [] => if intPart.isEmpty then none else some (digitsToNat intPart, 0)
  | '.' :: frac =>
      if frac.all Char.isDigit && !(intPart.isEmpty && frac.isEmpty) then
        some (digitsToNat (intPart ++ frac), frac.length)
      else none
  | _ => none

/-- CPython `float(s)` on the characters of a string: surrounding
whitespace is ignored, an optional sign precedes a decimal literal; any
other text fails (modelled on plain decimal literals — the exotic accepted
spellings `inf`, `nan`, exponents and underscores do not occur in the
claims and are mapped to failure). -/
def parsePyFloat (cs : List Char) : Option PyNum :=
  match stripWs cs with
  | '+' :: r => (parseDecCore r).map (fun mf => ⟨false, mf.1, mf.2⟩)
  | '-' :: r => (parseDecCore r).map (fun mf => ⟨true, mf.1, mf.2⟩)
  | r => (parseDecCore r).map (fun mf => ⟨false, mf.1, mf.2⟩)

/-- CPython `float(v)` on an arbitrary value: numbers pass through,
booleans become 0/1, strings are parsed (`ValueError` on failure), and
`None`/lists/dicts raise `TypeError`. -/
def pyFloat (v : JValue) : Except Exc PyNum :=
  match v with
  | .num q => .ok q
  | .bool b => .ok (.ofNat (if b then 1 else 0))
  | .str s =>
      match parsePyFloat s.toList with
      | some q => .ok q
      | none => .error .valueError
  | _ => .error .typeError

/-- Python `v.replace("%", "").strip()` applied to an arbitrary value:
only strings have these methods, every other value raises
`AttributeError` (note: `replace` removes every `"%"`, not only a
trailing one). -/
def pyReplacePctStrip (v : JValue) : Except Exc (List Char) :=
  match v with
  | .str s => .ok (stripWs (removePct s.toList))
  | _ => .error .attributeError

/-!
## `sensor.py`: the extraction helpers `_find_value` and `_extract`
-/

/-- The `return float(val) if val is not None else None` tail of
`_find_value`, applied once a matching data point `item` was found:
read `item.get("value")` and convert. -/
def find_value_ret (item : JValue) : Except Exc (Option PyNum) :=
  match item.get "value" .null with
  | .error e => .error e
  | .ok .null => .ok none
  | .ok v =>
      match pyFloat v with
      | .ok q => .ok (some q)
      | .error e => .error e

/-- The `for item in items` loop of `_find_value`: skip points whose
`categoryInt` differs from the requested one, skip points whose
`keyFigure` differs when a truthy `key_figure` was requested, and return
the converted `value` of the first remaining point. -/
def find_value_loop (category_int : String) (key_figure : JValue) :
    List JValue → Except Exc (Option PyNum)
  | [] => .ok none
  | item :: rest =>
      match item.get "categoryInt" .null with
      | .error e => .error e
      | .ok cat =>
          if !(cat.pyEq (.str category_int)) then
            find_value_loop category_int key_figure rest
          else if key_figure.truthy then
            match item.get "keyFigure" .null with
            | .error e => .error e
            | .ok kf =>
                if !(kf.pyEq key_figure) then
                  find_value_loop category_int key_figure rest
                else
                  find_value_ret item
          else
            find_value_ret item

/-- `sensor._find_value(items, category_int, key_figure=None)`: find a
value in a list of data points by `categoryInt` and optional `keyFigure`.
`items` is iterated as Python would (`TypeError` when not iterable);
`key_figure` is a JSON value, `null` standing for the Python default
`None`. -/
def find_value (items : JValue) (category_int : String)
    (key_figure : JValue := .null) : Except Exc (Option PyNum) :=
  match items.pyIter with
  | .error e => .error e
  | .ok xs => find_value_loop category_int key_figure xs

/-- The `for item in block.get("data2_2") or block.get("data2_1") or []`
loop of the `data2_pct` recipe in `_extract`: on the first point tagged
`categoryInt == "NE"`, return
`float(item.get("label", "").replace("%", "").strip())`. -/
def data2_pct_loop : List JValue → Except Exc (Option PyNum)
  | [] => .ok none
  | item :: rest =>
      match item.get "categoryInt" .null with
      | .error e => .error e
      | .ok cat =>
          if cat.pyEq (.str "NE") then
            match item.get "label" (.str "") with
            | .error e => .error e
            | .ok label =>
                match pyReplacePctStrip label with
                | .error e => .error e
                | .ok s =>
                    match parsePyFloat s with
                    | some q => .ok (some q)
                    | none => .error .valueError
          else
            data2_pct_loop rest

/-- The body of `sensor._extract` — everything inside its `try:` block,
before the `except (KeyError, IndexError, TypeError, ValueError)` handler
is applied.  Dispatches on the extractor name exactly as the chain of
`if extractor == ...` tests does, falling through to `return None` for an
unknown extractor. -/
def extract_body (block : JValue) (extractor : String) :
    Except Exc (Option PyNum) :=
  if extractor == "data1_curr" then
    match block.getItem "data1" with
    | .error e => .error e
    | .ok d => find_value d "CURR"
  else if extractor == "data1_prev" then
    match block.getItem "data1" with
    | .error e => .error e
    | .ok d => find_value d "1PREV"
  else if extractor == "data3_curr" then
    match block.getItem "data3" with
    | .error e => .error e
    | .ok d =>
        match block.getItem "keyFigure" with
        | .error e => .error e
        | .ok kf => find_value d "CURR" kf
  else if extractor == "data3_prev" then
    match block.getItem "data3" with
    | .error e => .error e
    | .ok d =>
        match block.getItem "keyFigure" with
        | .error e => .error e
        | .ok kf => find_value d "1PREV" kf
  else if extractor == "data3_ref" then
    match block.getItem "data3" with
    | .error e => .error e
    | .ok d => find_value d "CURR" (.str "REF")
  else if extractor == "data2_pct" then
    match block.get "data2_2" .null with
    | .error e => .error e
    | .ok d22 =>
        if d22.truthy then
          match d22.pyIter with
          | .error e => .error e
          | .ok xs => data2_pct_loop xs
        else
          match block.get "data2_1" .null with
          | .error e => .error e
          | .ok d21 =>
              if d21.truthy then
                match d21.pyIter with
                | .error e => .error e
                | .ok xs => data2_pct_loop xs
              else
                data2_pct_loop []
  else
    .ok none

/-- `sensor._extract(block, extractor)`: run the extractor body and apply
its `except (KeyError, IndexError, TypeError, ValueError): return None`
handler — those four exception classes are absorbed to `None`, every
other exception propagates. -/
def extract (block : JValue) (extractor : String) : Except Exc (Option PyNum) :=
  match extract_body block extractor with
  | .ok v => .ok v
  | .error .keyError => .ok none
  | .error .indexError => .ok none
  | .error .typeError => .ok none
  | .error .valueError => .ok none
  | .error e => .error e

/-!
## `json.loads`: a JSON decoder

Used by `_request` to parse non-empty 200-response bodies.  Modelled on
the JSON grammar without string escapes and numeric exponents, which do
not occur in any claim; malformed text (and trailing data) raises
`json.JSONDecodeError`.
-/

/-- Drop leading JSON whitespace. -/
def skipWs (cs : List Char) : List Char :=
  cs.dropWhile (fun c => c == ' ' || c == '\t' || c == '\n' || c == '\r')

/-- Parse the remainder of a JSON string after its opening quote
(escape-free model: a backslash fails the parse). -/
def jparseStr : List Char → Option (String × List Char)
  | [] => none
  | '"' :: r => some ("", r)
  | '\\' :: _ => none
  | c :: r => (jparseStr r).map (fun sr => (String.mk [c] ++ sr.1, sr.2))

/-- Parse a JSON number (optional minus, digits, optional fraction). -/
def jparseNum (cs : List Char) : Option (PyNum × List Char) :=
  let signed : Bool × List Char :=
    match cs with
    | '-' :: r => (true, r)
    | r => (false, r)
  let intPart := signed.2.takeWhile Char.isDigit
  let rest := signed.2.dropWhile Char.isDigit
  if intPart.isEmpty then none
  else
    match rest with
    | '.' :: r2 =>
        let frac := r2.takeWhile Char.isDigit
        let rest2 := r2.dropWhile Char.isDigit
        if frac.isEmpty then none
        else some (⟨signed.1, digitsToNat (intPart ++ frac), frac.length⟩, rest2)
    | _ => some (⟨signed.1, digitsToNat intPart, 0⟩, rest)

mutual

/-- Parse one JSON value (fuel-bounded recursive descent). -/
def jparseVal : Nat → List Char → Option (JValue × List Char)
  | 0, _ => none
  | fuel + 1, cs =>
    match skipWs cs with
    | 'n' :: 'u' :: 'l' :: 'l' :: r => some (.null, r)
    | 't' :: 'r' :: 'u' :: 'e' :: r => some (.bool true, r)
    | 'f' :: 'a' :: 'l' :: 's' :: 'e' :: r => some (.bool false, r)
    | '"' :: r => (jparseStr r).map (fun sr => (.str sr.1, sr.2))
    | '[' :: r =>
        (match skipWs r with
         | ']' :: r2 => some (.arr [], r2)
         | r2 => (jparseItems fuel r2).map (fun xr => (.arr xr.1, xr.2)))
    | '{' :: r =>
        (match skipWs r with
         | '}' :: r2 => some (.obj [], r2)
         | r2 => (jparseMembers fuel r2).map (fun xr => (.obj xr.1, xr.2)))
    | r => (jparseNum r).map (fun nr => (.num nr.1, nr.2))

/-- Parse the comma-separated items of a non-empty JSON array, up to and
including the closing bracket. -/
def jparseItems : Nat → List Char → Option (List JValue × List Char)
  | 0, _ => none
  | fuel + 1, cs =>
    match jparseVal fuel cs with
    | none => none
    | some (v, r) =>
        match skipWs r with
        | ',' :: r2 => (jparseItems fuel r2).map (fun xr => (v :: xr.1, xr.2))
        | ']' :: r2 => some ([v], r2)
        | _ => none

/-- Parse the members of a non-empty JSON object, up to and including the
closing brace. -/
def jparseMembers : Nat → List Char →
    Option (List (String × JValue) × List Char)
  | 0, _ => none
  | fuel + 1, cs =>
    match skipWs cs with
    | '"' :: r =>
        (match jparseStr r with
         | none => none
         | some (k, r1) =>
             match skipWs r1 with
             | ':' :: r2 =>
                 (match jparseVal fuel r2 with
                  | none => none
                  | some (v, r3) =>
                      match skipWs r3 with
                      | ',' :: r4 =>
                          (jparseMembers fuel r4).map
                            (fun xr => ((k, v) :: xr.1, xr.2))
                      | '}' :: r4 => some ([(k, v)], r4)
                      | _ => none)
             | _ => none)
    | _ => none

end

/-- `json.loads(s)`: parse one JSON document; anything else — including
trailing data — raises `json.JSONDecodeError`. -/
def jsonLoads (s : String) : Except Exc JValue :=
  match jparseVal (2 * s.toList.length + 2) s.toList with
  | some (v, rest) =>
      if (skipWs rest).isEmpty then .ok v else .error .jsonDecodeError
  | none => .error .jsonDecodeError

/-!
## `api.py`: the authenticator `authenticate`
-/

/-- Does `needle` occur as a contiguous substring of the character list? -/
def listContainsSub (needle : List Char) : List Char → Bool
  | [] => needle.isEmpty
  | c :: rest => needle.isPrefixOf (c :: rest) || listContainsSub needle rest

/-- Python `str.lower()` (ASCII model, enough for URLs). -/
def lowerChars (s : String) : List Char :=
  s.toList.map Char.toLower

/-- The result of one network round trip: completed (with a payload), or
aborted by an `aiohttp.ClientError`. -/
inductive NetResult (α : Type) where
  | ok (a : α)
  | clientError

/-- What the credential-submission POST of the login handshake produced
when it completed: the names of the cookies in the session's jar
afterwards, and the final resolved URL `str(resp.url)`. -/
structure PostResp where
  cookies : List String
  finalUrl : String

/-- One login exchange as the network delivers it to `authenticate`:
the seed GET of the login page, then the credential POST. -/
structure LoginExchange where
  seed : NetResult Unit
  post : NetResult PostResp

/-- The outcome of one `authenticate()` call: it returns `True`
(`success`) or raises `MinolAuthError` / `MinolConnectionError`. -/
inductive AuthOutcome where
  | success
  | authError
  | connError
  deriving Repr, DecidableEq

/-- `MinolApiClient.authenticate`: seed the SAP cookies with a GET, POST
the credentials, then require the `MYSAPSSO2` cookie in the jar (else
`MinolAuthError`) and require that the final URL, lower-cased, does not
contain `"j_security_check"` (else `MinolAuthError`).  Any
`aiohttp.ClientError` in either step is wrapped into
`MinolConnectionError`. -/
def authenticate (env : LoginExchange) : AuthOutcome :=
  match env.seed with
  | .clientError => .connError
  | .ok _ =>
    match env.post with
    | .clientError => .connError
    | .ok r =>
        if !(r.cookies.contains "MYSAPSSO2") then .authError
        else if listContainsSub "j_security_check".toList (lowerChars r.finalUrl) then
          .authError
        else .success

/-!
## `api.py`: the resilient request executor `_request`
-/

/-- The outcome the network produces for one HTTP attempt inside
`_request`: an `aiohttp.ClientError`, or a response carrying its HTTP
status and body text. -/
inductive AttemptResult where
  | clientError
  | response (status : Nat) (body : String)

/-- The environment a single `_request` call runs against: the network's
outcome for the i-th HTTP attempt, and the outcome of the i-th
`authenticate()` call the executor makes. -/
structure ReqEnv where
  attempts : Nat → AttemptResult
  auths : Nat → AuthOutcome

/-- The 200-response tail of `_request`:
`text = await resp.text(); if not text.strip(): return None;
return json.loads(text)`. -/
def request_body_tail (body : String) : Except Exc (Option JValue) :=
  if (stripWs body.toList).isEmpty then .ok none
  else
    match jsonLoads body with
    | .ok v => .ok (some v)
    | .error e => .error e

/-- The `for attempt in range(2)` loop of `_request`, also returning how
many `authenticate()` calls were made.  On a 401/403 status or an
`aiohttp.ClientError` in attempt 0, `authenticate()` runs (its
`MinolAuthError` / `MinolConnectionError` propagate) and the loop
continues; in attempt 1 a `ClientError` is wrapped into
`MinolConnectionError`, any non-200 status returns `None`, and a 200
status hands its body to `request_body_tail`. -/
def request_loop (env : ReqEnv) :
    List Nat → Nat → Except Exc (Option JValue) × Nat
  | [], n => (.ok none, n)
  | attempt :: rest, n =>
    match env.attempts attempt with
    | .clientError =>
        if attempt == 0 then
          match env.auths n with
          | .success => request_loop env rest (n + 1)
          | .authError => (.error .minolAuthError, n + 1)
          | .connError => (.error .minolConnectionError, n + 1)
        else (.error .minolConnectionError, n)
    | .response status body =>
        if (status == 401 || status == 403) && attempt == 0 then
          match env.auths n with
          | .success => request_loop env rest (n + 1)
          | .authError => (.error .minolAuthError, n + 1)
          | .connError => (.error .minolConnectionError, n + 1)
        else if status != 200 then (.ok none, n)
        else (request_body_tail body, n)

/-- `MinolApiClient._request`: run the two-attempt loop; the second
component counts the `authenticate()` calls made during this one logical
call. -/
def request (env : ReqEnv) : Except Exc (Option JValue) × Nat :=
  request_loop env [0, 1] 0

/-!
## `api.py`: the data endpoints and the aggregator `get_all_data`
-/

/-- `const.BASE_URL`. -/
def BASE_URL : String := "https://webservices.minol.com"

/-- `const.EMDATA_REST`. -/
def EMDATA_REST : String :=
  BASE_URL ++ "/minol.com~kundenportal~em~web/rest/EMData"

/-- The environment the data endpoints run against: the outcome of the
underlying `_request` executor for a GET by URL, and for a POST by URL
and JSON payload.  An outcome is the parsed JSON (`some _`), the no-data
result `None`, or a raised exception. -/
structure AggEnv where
  getResult : String → Except Exc (Option JValue)
  postResult : String → JValue → Except Exc (Option JValue)

/-- `MinolApiClient.get_user_tenants`: GET `EMData/getUserTenants` and
return `data if isinstance(data, list) else []`. -/
def get_user_tenants (env : AggEnv) : Except Exc (List JValue) :=
  match env.getResult (EMDATA_REST ++ "/getUserTenants") with
  | .error e => .error e
  | .ok d =>
      match d with
      | some (.arr xs) => .ok xs
      | _ => .ok []

/-- The list the claim says `get_user_tenants` returns for a request
payload `d`: the array's own elements when `d` is a JSON array, and the
empty list otherwise. -/
def tenantsOf (d : Option JValue) : List JValue :=
  match d with
  | some (.arr xs) => xs
  | _ => []

/-- The selection dict built by `MinolApiClient.get_layer_info`. -/
def layer_selection (user_num : JValue) : JValue :=
  .obj [("userNum", user_num), ("layer", .str "NE"),
        ("scale", .str "CALMONTH"), ("chartRefUnit", .str "ABS"),
        ("refObject", .str "PREV_YEAR"), ("consType", .str "HEIZUNG"),
        ("dashBoardKey", .str "PE"), ("valuesInKWH", .bool true)]

/-- The selection dict built by `MinolApiClient.get_dashboard`. -/
def dashboard_selection (user_num : JValue) : JValue :=
  .obj [("userNum", user_num), ("layer", .str "NE"),
        ("scale", .str "CALMONTH"), ("chartRefUnit", .str "ABS"),
        ("refObject", .str "DIN_AVG"), ("consType", .str "HEIZUNG"),
        ("dashBoardKey", .str "PE"), ("valuesInKWH", .bool true),
        ("dlgKey", .str "dashboard")]

/-- `MinolApiClient.get_layer_info(user_num)`: POST the layer selection
to `EMData/getLayerInfo`.  `user_num` is a JSON value, `null` standing
for the Python default `None`. -/
def get_layer_info (env : AggEnv) (user_num : JValue) :
    Except Exc (Option JValue) :=
  env.postResult (EMDATA_REST ++ "/getLayerInfo") (layer_selection user_num)

/-- `MinolApiClient.get_dashboard(user_num)`: POST the dashboard
selection to `EMData/readData`. -/
def get_dashboard (env : AggEnv) (user_num : JValue) :
    Except Exc (Option JValue) :=
  env.postResult (EMDATA_REST ++ "/readData") (dashboard_selection user_num)

/-- Python `x or {}` on an optional JSON value: a falsy or absent value
(`None`, `{}`, `[]`, `""`, `0`, `False`) is replaced by `{}`. -/
def pyOrEmptyDict (v : Option JValue) : JValue :=
  match v with
  | none => .obj []
  | some w => if w.truthy then w else .obj []

/-- The tail of `get_all_data` once `user_num` and `tenant_info` are
resolved: fetch layer info and dashboard and assemble the snapshot dict
with keys `tenants`, `tenant_info`, `user_num`, `layer_info`,
`dashboard` (the last two defaulted with `or {}`). -/
def get_all_data_assemble (env : AggEnv) (user_num tenant_info : JValue)
    (tenants : List JValue) : Except Exc JValue :=
  match get_layer_info env user_num with
  | .error e => .error e
  | .ok layer_info =>
      match get_dashboard env user_num with
      | .error e => .error e
      | .ok dashboard =>
          .ok (.obj [("tenants", .arr tenants),
                     ("tenant_info", tenant_info),
                     ("user_num", user_num),
                     ("layer_info", pyOrEmptyDict layer_info),
                     ("dashboard", pyOrEmptyDict dashboard)])

/-- `MinolApiClient.get_all_data`: fetch the tenant list; resolve
`user_num = tenants[0]["userNumber"] if tenants else None` (the
subscript raises `KeyError` when the first record lacks the key) and
`tenant_info = tenants[0] if tenants else {}`; then fetch layer info and
dashboard for `user_num` and assemble the snapshot. -/
def get_all_data (env : AggEnv) : Except Exc JValue :=
  match get_user_tenants env with
  | .error e => .error e
  | .ok tenants =>
      match tenants with
      | [] => get_all_data_assemble env .null (.obj []) []
      | t0 :: rest =>
          match t0.getItem "userNumber" with
          | .error e => .error e
          | .ok un => get_all_data_assemble env un t0 (t0 :: rest)

/-- The key list of a snapshot dict (insertion order). -/
def jsonKeys (v : JValue) : List String :=
  match v with
  | .obj kvs => kvs.map (fun kv => kv.1)
  | _ => []

/-- Does an attempt outcome make attempt 0 of `_request` re-authenticate
and retry: a 401/403 status, or an `aiohttp.ClientError`? -/
def retriable : AttemptResult → Bool
  | .clientError => true
  | .response st _ => st == 401 || st == 403

/-- The built-in Python exceptions that can arise inside `_extract`
(as opposed to the Minol exception classes and the JSON decode error,
which cannot). -/
def pyBuiltinExc : Exc → Bool
  | .keyError => true
  | .indexError => true
  | .typeError => true
  | .valueError => true
  | .attributeError => true
  | _ => false

/-!
## Helper lemmas: which exceptions each primitive can raise
-/

theorem JValue.get_error {v : JValue} {key : String} {dflt : JValue} {e : Exc}
    (h : JValue.get v key dflt = .error e) : e = .attributeError := by
  cases v <;> simp only [JValue.get, Except.error.injEq] at h
  case obj kvs => split at h <;> simp_all
  all_goals exact h.symm

theorem JValue.getItem_error {v : JValue} {key : String} {e : Exc}
    (h : JValue.getItem v key = .error e) : pyBuiltinExc e = true := by
  cases v <;> simp only [JValue.getItem, Except.error.injEq] at h
  case obj kvs =>
    split at h <;> simp_all
    subst h; rfl
  all_goals (subst h; rfl)

theorem JValue.pyIter_error {v : JValue} {e : Exc}
    (h : JValue.pyIter v = .error e) : e = .typeError := by
  cases v <;> simp only [JValue.pyIter] at h
  all_goals first
    | exact Except.noConfusion h
    | (injection h with h; exact h.symm)

theorem pyFloat_error {v : JValue} {e : Exc}
    (h : pyFloat v = .error e) : pyBuiltinExc e = true := by
  cases v <;> simp only [pyFloat] at h
  case str s =>
    split at h
    · injection h
    · injection h with h; subst h; rfl
  all_goals first
    | exact Except.noConfusion h
    | (injection h with h; subst h; rfl)

theorem pyReplacePctStrip_error {v : JValue} {e : Exc}
    (h : pyReplacePctStrip v = .error e) : e = .attributeError := by
  cases v <;> simp only [pyReplacePctStrip] at h
  case str s => injection h
  all_goals (injection h with h; exact h.symm)

theorem find_value_ret_error {item : JValue} {e : Exc}
    (h : find_value_ret item = .error e) : pyBuiltinExc e = true := by
  rw [find_value_ret] at h
  split at h
  · next e' hg =>
      obtain rfl : e' = e := by injection h
      simp [JValue.get_error hg, pyBuiltinExc]
  · exact absurd h (by simp)
  · next v hg =>
      split at h
      · exact absurd h (by simp)
      · next e' hf =>
          obtain rfl : e' = e := by injection h
          exact pyFloat_error hf

theorem find_value_loop_error {ci : String} {kf : JValue} {xs : List JValue}
    {e : Exc} (h : find_value_loop ci kf xs = .error e) :
    pyBuiltinExc e = true := by
  induction xs with
  | nil => exact Except.noConfusion h
  | cons item rest ih =>
      rw [find_value_loop] at h
      split at h
      · next e' hg =>
          obtain rfl : e' = e := by injection h
          simp [JValue.get_error hg, pyBuiltinExc]
      · next cat hg =>
          split at h
          · exact ih h
          · split at h
            · split at h
              · next e' hk =>
                  obtain rfl : e' = e := by injection h
                  simp [JValue.get_error hk, pyBuiltinExc]
              · next kfv hk =>
                  split at h
                  · exact ih h
                  · exact find_value_ret_error h
            · exact find_value_ret_error h

theorem find_value_error {items : JValue} {ci : String} {kf : JValue}
    {e : Exc} (h : find_value items ci kf = .error e) :
    pyBuiltinExc e = true := by
  rw [find_value] at h
  split at h
  · next e' hi =>
      obtain rfl : e' = e := by injection h
      simp [JValue.pyIter_error hi, pyBuiltinExc]
  · exact find_value_loop_error h

theorem data2_pct_loop_error {xs : List JValue} {e : Exc}
    (h : data2_pct_loop xs = .error e) : pyBuiltinExc e = true := by
  induction xs with
  | nil => exact Except.noConfusion h
  | cons item rest ih =>
      rw [data2_pct_loop] at h
      split at h
      · next e' hg =>
          obtain rfl : e' = e := by injection h
          simp [JValue.get_error hg, pyBuiltinExc]
      · next cat hg =>
          split at h
          · split at h
            · next e' hl =>
                obtain rfl : e' = e := by injection h
                simp [JValue.get_error hl, pyBuiltinExc]
            · next lab hl =>
                split at h
                · next e' hr =>
                    obtain rfl : e' = e := by injection h
                    simp [pyReplacePctStrip_error hr, pyBuiltinExc]
                · next s hr =>
                    split at h
                    · exact Except.noConfusion h
                    · obtain rfl : Exc.valueError = e := by injection h
                      rfl
          · exact ih h

theorem extract_body_error {block : JValue} {extractor : String} {e : Exc}
    (h : extract_body block extractor = .error e) : pyBuiltinExc e = true := by
  rw [extract_body] at h
  split at h
  · split at h
    · next e' hg =>
        obtain rfl : e' = e := by injection h
        exact JValue.getItem_error hg
    · exact find_value_error h
  · split at h
    · split at h
      · next e' hg =>
          obtain rfl : e' = e := by injection h
          exact JValue.getItem_error hg
      · exact find_value_error h
    · split at h
      · split at h
        · next e' hg =>
            obtain rfl : e' = e := by injection h
            exact JValue.getItem_error hg
        · split at h
          · next e' hg =>
              obtain rfl : e' = e := by injection h
              exact JValue.getItem_error hg
          · exact find_value_error h
      · split at h
        · split at h
          · next e' hg =>
              obtain rfl : e' = e := by injection h
              exact JValue.getItem_error hg
          · split at h
            · next e' hg =>
                obtain rfl : e' = e := by injection h
                exact JValue.getItem_error hg
            · exact find_value_error h
        · split at h
          · split at h
            · next e' hg =>
                obtain rfl : e' = e := by injection h
                exact JValue.getItem_error hg
            · exact find_value_error h
          · split at h
            · split at h
              · next e' hg =>
                  obtain rfl : e' = e := by injection h
                  simp [JValue.get_error hg, pyBuiltinExc]
              · next d22 hg =>
                  split at h
                  · split at h
                    · next e' hi =>
                        obtain rfl : e' = e := by injection h
                        simp [JValue.pyIter_error hi, pyBuiltinExc]
                    · exact data2_pct_loop_error h
                  · split at h
                    · next e' hg1 =>
                        obtain rfl : e' = e := by injection h
                        simp [JValue.get_error hg1, pyBuiltinExc]
                    · next d21 hg1 =>
                        split at h
                        · split at h
                          · next e' hi =>
                              obtain rfl : e' = e := by injection h
                              simp [JValue.pyIter_error hi, pyBuiltinExc]
                          · exact data2_pct_loop_error h
                        · exact data2_pct_loop_error h
            · exact Except.noConfusion h

/-!
## Claim theorems
-/

/-- C5: for every login exchange after which the authority cookie
`MYSAPSSO2` is absent from the session's cookie jar, `authenticate`
raises `MinolAuthError`; it never returns success in that case. -/
theorem authenticate_missing_cookie (env : LoginExchange) (r : PostResp)
    (hpost : env.post = .ok r)
    (hcookie : "MYSAPSSO2" ∉ r.cookies) :
    (env.seed = .ok () → authenticate env = .authError) ∧
      authenticate env ≠ .success := by
  constructor
  · intro hseed
    simp [authenticate, hseed, hpost, hcookie]
  · cases hseed : env.seed with
    | clientError => simp [authenticate, hseed]
    | ok u => simp [authenticate, hseed, hpost, hcookie]

/-- Witness for C5: a concrete completed exchange that issued only the
`sap-usercontext` cookie is rejected with `MinolAuthError`. -/
theorem authenticate_missing_cookie_witness :
    authenticate ⟨.ok (), .ok ⟨["sap-usercontext"],
      "https://webservices.minol.com/irj/portal"⟩⟩ = .authError :=
  (authenticate_missing_cookie _ _ rfl (by decide)).1 rfl

/-- C6: for every login exchange whose final resolved URL, lower-cased,
still contains `"j_security_check"`, `authenticate` raises
`MinolAuthError` — whether or not the authority cookie is present. -/
theorem authenticate_login_redirect (env : LoginExchange) (r : PostResp)
    (hseed : env.seed = .ok ())
    (hpost : env.post = .ok r)
    (hurl : listContainsSub "j_security_check".toList (lowerChars r.finalUrl)
      = true) :
    authenticate env = .authError := by
  by_cases hc : "MYSAPSSO2" ∈ r.cookies <;>
    (simp [authenticate, hseed, hpost, hc, hurl]; try exact hurl)

/-- Witness for C6: a concrete exchange that did issue the authority
cookie but resolved back to the `j_security_check` URL is rejected. -/
theorem authenticate_login_redirect_witness :
    authenticate ⟨.ok (), .ok ⟨["MYSAPSSO2"],
      "https://webservices.minol.com/irj/servlet/prt/portal/prtroot/j_security_check"⟩⟩
      = .authError :=
  authenticate_login_redirect _ _ rfl rfl (by decide)

/-- C9: when the tenant list is non-empty but its first record lacks the
key `"userNumber"`, `get_all_data` raises `KeyError` — which is neither
`MinolAuthError` nor `MinolConnectionError`. -/
theorem get_all_data_missing_userNumber (env : AggEnv)
    (kvs : List (String × JValue)) (rest : List JValue)
    (ht : get_user_tenants env = .ok (.obj kvs :: rest))
    (hk : kvs.find? (fun kv => kv.1 == "userNumber") = none) :
    get_all_data env = .error .keyError ∧
      Exc.keyError ≠ .minolAuthError ∧ Exc.keyError ≠ .minolConnectionError := by
  refine ⟨?_, by decide, by decide⟩
  simp [get_all_data, ht, JValue.getItem, hk]

/-- Witness for C9: a concrete tenant list whose only record carries just
a `name` field makes the refresh aggregation raise `KeyError`. -/
theorem get_all_data_missing_userNumber_witness :
    get_all_data ⟨fun _ => .ok (some (.arr [.obj [("name", .str "A")]])),
      fun _ _ => .ok none⟩ = .error .keyError :=
  (get_all_data_missing_userNumber
    ⟨fun _ => .ok (some (.arr [.obj [("name", .str "A")]])),
      fun _ _ => .ok none⟩ [("name", .str "A")] [] rfl rfl).1

/-- C10: `get_user_tenants` always returns a list — the parsed payload
itself when it is a JSON array, and the empty list whenever the
underlying request yields anything else (the `None` no-data outcome, a
mapping, or any other non-list value). -/
theorem get_user_tenants_always_list (env : AggEnv) (d : Option JValue)
    (hd : env.getResult (EMDATA_REST ++ "/getUserTenants") = .ok d) :
    get_user_tenants env = .ok (tenantsOf d) := by
  rw [get_user_tenants, hd]
  rcases d with _ | v
  · rfl
  · cases v <;> rfl

/-- Witness for C10: a mapping payload and the no-data outcome both give
`[]`, an array payload is passed through. -/
theorem get_user_tenants_always_list_witness :
    get_user_tenants ⟨fun _ => .ok (some (.obj [("a", .null)])),
        fun _ _ => .ok none⟩ = .ok [] ∧
    get_user_tenants ⟨fun _ => .ok none, fun _ _ => .ok none⟩ = .ok [] ∧
    get_user_tenants ⟨fun _ => .ok (some (.arr [.null])),
        fun _ _ => .ok none⟩ = .ok [.null] :=
  ⟨get_user_tenants_always_list _ (some (.obj [("a", .null)])) rfl,
   get_user_tenants_always_list _ none rfl,
   get_user_tenants_always_list _ (some (.arr [.null])) rfl⟩

/-- Helper: every snapshot assembled by `get_all_data_assemble` has
exactly the five keys, in insertion order. -/
theorem get_all_data_assemble_keys {env : AggEnv} {un ti : JValue}
    {ts : List JValue} {snap : JValue}
    (h : get_all_data_assemble env un ti ts = .ok snap) :
    jsonKeys snap
      = ["tenants", "tenant_info", "user_num", "layer_info", "dashboard"] := by
  rw [get_all_data_assemble] at h
  split at h
  · exact Except.noConfusion h
  · split at h
    · exact Except.noConfusion h
    · obtain rfl : _ = snap := by injection h
      rfl

/-- C4 (counterexample): the snapshot's key for the tenant identifier is
`"user_num"`, not `"user_number"` — a concrete refresh returns a mapping
whose keys do not include `"user_number"`. -/
theorem snapshot_key_named_user_num :
    get_all_data ⟨fun _ => .ok none, fun _ _ => .ok none⟩ =
      .ok (.obj [("tenants", .arr []), ("tenant_info", .obj []),
                 ("user_num", .null), ("layer_info", .obj []),
                 ("dashboard", .obj [])]) ∧
    "user_number" ∉ jsonKeys (.obj [("tenants", .arr []),
        ("tenant_info", .obj []), ("user_num", .null),
        ("layer_info", .obj []), ("dashboard", .obj [])]) :=
  ⟨rfl, by decide⟩

/-- C4 (amended): every snapshot returned by `get_all_data` is a mapping
whose keys are exactly `tenants`, `tenant_info`, `user_num` (not
`user_number`), `layer_info` and `dashboard`. -/
theorem get_all_data_snapshot_keys (env : AggEnv) (snap : JValue)
    (h : get_all_data env = .ok snap) :
    jsonKeys snap
      = ["tenants", "tenant_info", "user_num", "layer_info", "dashboard"] := by
  rw [get_all_data] at h
  split at h
  · exact Except.noConfusion h
  · split at h
    · exact get_all_data_assemble_keys h
    · split at h
      · exact Except.noConfusion h
      · exact get_all_data_assemble_keys h

/-- Witness for C4 (amended): the key list of a concretely assembled
snapshot. -/
theorem get_all_data_snapshot_keys_witness :
    jsonKeys (.obj [("tenants", .arr []), ("tenant_info", .obj []),
        ("user_num", .null), ("layer_info", .obj []),
        ("dashboard", .obj [])])
      = ["tenants", "tenant_info", "user_num", "layer_info", "dashboard"] :=
  get_all_data_snapshot_keys ⟨fun _ => .ok none, fun _ _ => .ok none⟩ _ rfl

/-- C8: when the fetched tenant list is empty, the refresh does not fail
because of it: the snapshot carries a null `user_num` and an empty
`tenant_info`, the layer-info and dashboard fetches are issued with the
null tenant identifier, and any error of the cycle is one of those two
fetches' own errors. -/
theorem get_all_data_empty_tenants (env : AggEnv)
    (ht : get_user_tenants env = .ok []) :
    (∀ li db, get_layer_info env .null = .ok li →
        get_dashboard env .null = .ok db →
        get_all_data env = .ok (.obj
          [("tenants", .arr []), ("tenant_info", .obj []),
           ("user_num", .null), ("layer_info", pyOrEmptyDict li),
           ("dashboard", pyOrEmptyDict db)])) ∧
    (∀ e, get_all_data env = .error e →
        get_layer_info env .null = .error e ∨
          get_dashboard env .null = .error e) := by
  constructor
  · intro li db hli hdb
    simp [get_all_data, ht, get_all_data_assemble, hli, hdb]
  · intro e he
    simp only [get_all_data, ht] at he
    rw [get_all_data_assemble] at he
    split at he
    · next e' hli =>
        obtain rfl : e' = e := by injection he
        exact .inl hli
    · split at he
      · next e' hdb =>
          obtain rfl : e' = e := by injection he
          exact .inr hdb
      · exact Except.noConfusion he

/-- Witness for C8: a concrete environment with an empty tenant list and
non-empty layer/dashboard payloads assembles the expected snapshot. -/
theorem get_all_data_empty_tenants_witness :
    get_all_data ⟨fun _ => .ok none,
        fun _ _ => .ok (some (.obj [("views", .arr [])]))⟩ =
      .ok (.obj [("tenants", .arr []), ("tenant_info", .obj []),
                 ("user_num", .null),
                 ("layer_info", .obj [("views", .arr [])]),
                 ("dashboard", .obj [("views", .arr [])])]) := by
  have h := (get_all_data_empty_tenants
      ⟨fun _ => .ok none, fun _ _ => .ok (some (.obj [("views", .arr [])]))⟩
      rfl).1 (some (.obj [("views", .arr [])]))
      (some (.obj [("views", .arr [])])) rfl rfl
  simpa [pyOrEmptyDict, JValue.truthy] using h

/-- Helper: the second loop iteration never calls `authenticate` — its
auth-call count is whatever it was entering the iteration. -/
theorem request_loop_one_snd (env : ReqEnv) (n : Nat) :
    (request_loop env [1] n).2 = n := by
  rw [request_loop]
  cases h1 : env.attempts 1 with
  | clientError => rfl
  | response st body =>
      show ((if ((st == 401 || st == 403) && (1 == 0)) = true then
          match env.auths n with
          | AuthOutcome.success => request_loop env [] (n + 1)
          | AuthOutcome.authError => (Except.error Exc.minolAuthError, n + 1)
          | AuthOutcome.connError =>
              (Except.error Exc.minolConnectionError, n + 1)
        else if (st != 200) = true then (Except.ok none, n)
        else (request_body_tail body, n)).2 = n)
      split
      · next hcond => simp at hcond
      · split <;> rfl

/-- Helper: a transport failure in the second attempt surfaces as
`MinolConnectionError`. -/
theorem request_loop_one_client (env : ReqEnv) (n : Nat)
    (h1 : env.attempts 1 = .clientError) :
    request_loop env [1] n = (.error .minolConnectionError, n) := by
  rw [request_loop, h1]
  rfl

/-- Helper: a 401/403 status in the second attempt is not retried — it
falls through the `!= 200` test and yields the no-data result. -/
theorem request_loop_one_401 (env : ReqEnv) (n : Nat) (st : Nat)
    (body : String) (h1 : env.attempts 1 = .response st body)
    (hst : (st == 401 || st == 403) = true) :
    request_loop env [1] n = (.ok none, n) := by
  rw [request_loop, h1]
  simp only [beq_iff_eq, Bool.or_eq_true] at hst
  rcases hst with rfl | rfl <;> rfl

/-- C1: within one logical `_request` call, at most one re-authentication
happens no matter how often a 401/403 or transport failure recurs; after
a first retriable failure and a successful re-authentication, a transport
failure in the retried second attempt raises `MinolConnectionError`, and
a 401/403 in the retried second attempt is not retried again — it yields
the no-data result with the re-authentication count still 1. -/
theorem request_single_reauth (env : ReqEnv) :
    (request env).2 ≤ 1 ∧
    (retriable (env.attempts 0) = true → env.auths 0 = .success →
      env.attempts 1 = .clientError →
      request env = (.error .minolConnectionError, 1)) ∧
    (retriable (env.attempts 0) = true → env.auths 0 = .success →
      ∀ st body, env.attempts 1 = .response st body →
        (st == 401 || st == 403) = true →
        request env = (.ok none, 1)) := by
  refine ⟨?_, ?_, ?_⟩
  · rw [request, request_loop]
    cases h0 : env.attempts 0 with
    | clientError =>
        cases env.auths 0 <;> simp [request_loop_one_snd]
    | response st body =>
        show ((if ((st == 401 || st == 403) && (0 == 0)) = true then
            match env.auths 0 with
            | AuthOutcome.success => request_loop env [1] (0 + 1)
            | AuthOutcome.authError => (Except.error Exc.minolAuthError, 0 + 1)
            | AuthOutcome.connError =>
                (Except.error Exc.minolConnectionError, 0 + 1)
          else if (st != 200) = true then (Except.ok none, 0)
          else (request_body_tail body, 0)).2 ≤ 1)
        split
        · cases env.auths 0 <;> simp [request_loop_one_snd]
        · split <;> simp
  · intro hr ha h1
    rw [request, request_loop]
    cases h0 : env.attempts 0 with
    | clientError =>
        rw [ha]
        exact request_loop_one_client env 1 h1
    | response st body =>
        rw [h0] at hr
        simp only [retriable, beq_iff_eq, Bool.or_eq_true] at hr
        rcases hr with rfl | rfl <;>
          (rw [ha]; exact request_loop_one_client env 1 h1)
  · intro hr ha st body h1 hst
    rw [request, request_loop]
    cases h0 : env.attempts 0 with
    | clientError =>
        rw [ha]
        exact request_loop_one_401 env 1 st body h1 hst
    | response st0 body0 =>
        rw [h0] at hr
        simp only [retriable, beq_iff_eq, Bool.or_eq_true] at hr
        rcases hr with rfl | rfl <;>
          (rw [ha]; exact request_loop_one_401 env 1 st body h1 hst)

/-- Witness for C1: with every attempt a transport failure the call
raises `MinolConnectionError` after one re-authentication; with every
attempt a 403 the call yields no data after one re-authentication. -/
theorem request_single_reauth_witness :
    request ⟨fun _ => .clientError, fun _ => .success⟩
      = (.error .minolConnectionError, 1) ∧
    request ⟨fun _ => .response 403 "", fun _ => .success⟩
      = (.ok none, 1) :=
  ⟨(request_single_reauth ⟨fun _ => .clientError, fun _ => .success⟩).2.1
      rfl rfl rfl,
   (request_single_reauth ⟨fun _ => .response 403 "", fun _ => .success⟩).2.2
      rfl rfl 403 "" rfl rfl⟩

/-- C2 (counterexample): a 2xx status other than 200 — here 201 with the
valid JSON body `"[1]"` — yields the no-data result, not the parsed JSON
the claim promises for every non-empty 2xx body. -/
theorem request_201_not_parsed :
    request ⟨fun _ => .response 201 "[1]", fun _ => .success⟩
      = (.ok none, 0) ∧
    jsonLoads "[1]" = .ok (.arr [.num ⟨false, 1, 0⟩]) :=
  ⟨rfl, rfl⟩

/-- C2 (amended): on the first attempt, a status that is not 200 (and not
the retried 401/403) yields the no-data result; a 200 response with a
blank body yields the no-data result; any other 200 response body is
handed to `json.loads` and its parse returned as-is. -/
theorem request_status_dispatch (env : ReqEnv) (st : Nat) (body : String)
    (h0 : env.attempts 0 = .response st body) :
    (st ≠ 200 → st ≠ 401 → st ≠ 403 → request env = (.ok none, 0)) ∧
    (st = 200 → (stripWs body.toList).isEmpty = true →
      request env = (.ok none, 0)) ∧
    (st = 200 → (stripWs body.toList).isEmpty = false →
      request env = ((jsonLoads body).map some, 0)) := by
  refine ⟨?_, ?_, ?_⟩
  · intro h200 h401 h403
    rw [request, request_loop, h0]
    show (if ((st == 401 || st == 403) && (0 == 0)) = true then
        match env.auths 0 with
        | AuthOutcome.success => request_loop env [1] (0 + 1)
        | AuthOutcome.authError => (Except.error Exc.minolAuthError, 0 + 1)
        | AuthOutcome.connError =>
            (Except.error Exc.minolConnectionError, 0 + 1)
      else if (st != 200) = true then (Except.ok none, 0)
      else (request_body_tail body, 0)) = (Except.ok none, 0)
    have hr : ((st == 401 || st == 403) && (0 == 0)) = false := by
      simp [h401, h403]
    rw [hr]
    have h200' : (st != 200) = true := by simp [h200]
    simp [h200']
  · intro h200 hbl
    subst h200
    rw [request, request_loop, h0]
    show (request_body_tail body, 0) = (Except.ok none, 0)
    rw [request_body_tail, if_pos hbl]
  · intro h200 hbl
    subst h200
    rw [request, request_loop, h0]
    show (request_body_tail body, 0) = ((jsonLoads body).map some, 0)
    rw [request_body_tail, if_neg (by rw [hbl]; simp)]
    cases hj : jsonLoads body <;> rfl

/-- Witness for C2 (amended): a 500 yields no data; a 200 with a blank
body yields no data; a 200 with body `"{}"` returns the parsed empty
mapping. -/
theorem request_status_dispatch_witness :
    request ⟨fun _ => .response 500 "oops", fun _ => .success⟩
      = (.ok none, 0) ∧
    request ⟨fun _ => .response 200 " ", fun _ => .success⟩
      = (.ok none, 0) ∧
    request ⟨fun _ => .response 200 "{}", fun _ => .success⟩
      = ((jsonLoads "{}").map some, 0) :=
  ⟨(request_status_dispatch ⟨fun _ => .response 500 "oops", fun _ => .success⟩
      500 "oops" rfl).1 (by decide) (by decide) (by decide),
   (request_status_dispatch ⟨fun _ => .response 200 " ", fun _ => .success⟩
      200 " " rfl).2.1 rfl (by decide),
   (request_status_dispatch ⟨fun _ => .response 200 "{}", fun _ => .success⟩
      200 "{}" rfl).2.2 rfl (by decide)⟩

/-- C3 (counterexample): a structurally mismatched block whose data-point
list contains a bare number — `{"data1": [42]}` — makes extraction raise
`AttributeError` (the data point has no `.get` method), so extraction
does not absorb every structural mismatch. -/
theorem extract_nonmapping_point_raises :
    extract (.obj [("data1", .arr [.num ⟨false, 42, 0⟩])]) "data1_curr"
      = .error .attributeError := rfl

/-- C3 (amended): for every block and extractor kind, extraction either
returns a value (a number or the "unknown" `none`) or raises
`AttributeError` — the error produced by a non-mapping data point or a
non-string share label.  `KeyError`, `IndexError`, `TypeError` and
`ValueError` — missing keys, wrong shapes, non-numeric values — are all
absorbed to "unknown" and never escape. -/
theorem extract_only_attribute_error (block : JValue) (extractor : String) :
    (∃ v, extract block extractor = .ok v) ∨
      extract block extractor = .error .attributeError := by
  cases h : extract_body block extractor with
  | ok v => exact .inl ⟨v, by simp [extract, h]⟩
  | error e =>
      have hb := extract_body_error h
      cases e with
      | minolAuthError => exact absurd hb (by decide)
      | minolConnectionError => exact absurd hb (by decide)
      | jsonDecodeError => exact absurd hb (by decide)
      | keyError => exact .inl ⟨none, by simp [extract, h]⟩
      | indexError => exact .inl ⟨none, by simp [extract, h]⟩
      | typeError => exact .inl ⟨none, by simp [extract, h]⟩
      | valueError => exact .inl ⟨none, by simp [extract, h]⟩
      | attributeError => exact .inr (by simp [extract, h])

/-- C7 (counterexample): two literal deviations from the claim.  First, a
block whose `data2_2` is present but empty falls back to `data2_1` (here
yielding 5.0) although the claim says `data2_2` is read whenever present.
Second, the percentage recipe removes every `"%"`, not only a trailing
marker: the label `"1%2"` parses to 12.0 instead of being rejected. -/
theorem extract_data2_pct_literal_deviation :
    extract (.obj [("data2_2", .arr []),
        ("data2_1", .arr [.obj [("categoryInt", .str "NE"),
          ("label", .str "5%")]])]) "data2_pct"
      = .ok (some ⟨false, 5, 0⟩) ∧
    extract (.obj [("data2_1", .arr [.obj [("categoryInt", .str "NE"),
        ("label", .str "1%2")]])]) "data2_pct"
      = .ok (some ⟨false, 12, 0⟩) :=
  ⟨rfl, rfl⟩

/-- C7 (amended): the building-share recipe removes every `"%"` and trims
whitespace before numeric conversion — so `"12 %"` yields 12.0, `" 7.5%"`
yields 7.5 and `"n/a"` yields "unknown" — and it reads the sub-collection
`data2_2` when that is truthy (present and non-empty), falling back to
`data2_1` otherwise (also when `data2_2` is present but empty or null),
considering only points whose `categoryInt` is `"NE"`. -/
theorem extract_data2_pct_behavior :
    (∀ s : String,
      extract (.obj [("data2_1", .arr [.obj [("categoryInt", .str "NE"),
          ("label", .str s)]])]) "data2_pct"
        = .ok (parsePyFloat (stripWs (removePct s.toList)))) ∧
    (extract (.obj [("data2_1", .arr [.obj [("categoryInt", .str "NE"),
        ("label", .str "12 %")]])]) "data2_pct" = .ok (some ⟨false, 12, 0⟩)
      ∧ (PyNum.mk false 12 0).toRat = 12) ∧
    (extract (.obj [("data2_1", .arr [.obj [("categoryInt", .str "NE"),
        ("label", .str " 7.5%")]])]) "data2_pct" = .ok (some ⟨false, 75, 1⟩)
      ∧ (PyNum.mk false 75 1).toRat = 15 / 2) ∧
    (extract (.obj [("data2_1", .arr [.obj [("categoryInt", .str "NE"),
        ("label", .str "n/a")]])]) "data2_pct" = .ok none) ∧
    (∀ d2 d1 : JValue, d2.truthy = true →
      extract (.obj [("data2_2", d2), ("data2_1", d1)]) "data2_pct"
        = extract (.obj [("data2_2", d2)]) "data2_pct") ∧
    (∀ d2 d1 : JValue, d2.truthy = false →
      extract (.obj [("data2_2", d2), ("data2_1", d1)]) "data2_pct"
        = extract (.obj [("data2_1", d1)]) "data2_pct") ∧
    (∀ item rest cat, item.get "categoryInt" .null = .ok cat →
      cat.pyEq (.str "NE") = false →
      data2_pct_loop (item :: rest) = data2_pct_loop rest) := by
  refine ⟨?_, ⟨rfl, by norm_num [PyNum.toRat, PyNum.toInt]⟩,
    ⟨rfl, by norm_num [PyNum.toRat, PyNum.toInt]⟩, rfl, ?_, ?_, ?_⟩
  · intro s
    cases hp : parsePyFloat (stripWs (removePct s.data)) with
    | some q =>
        simp [extract, extract_body, data2_pct_loop, JValue.get,
          JValue.pyEq, pyReplacePctStrip, JValue.pyIter, JValue.truthy,
          List.find?, hp]
    | none =>
        simp [extract, extract_body, data2_pct_loop, JValue.get,
          JValue.pyEq, pyReplacePctStrip, JValue.pyIter, JValue.truthy,
          List.find?, hp]
  · intro d2 d1 h
    simp [extract, extract_body, JValue.get, List.find?, h]
  · intro d2 d1 h
    cases d2 <;>
      simp_all [extract, extract_body, JValue.get, List.find?, JValue.truthy]
  · intro item rest cat hg hne
    simp [data2_pct_loop, hg, hne]

/-- Witness for C7 (amended): the quantified parts applied at concrete
inputs — an arbitrary unparsable label, a truthy `data2_2`, a falsy
`data2_2`, and a non-`NE` data point that is skipped. -/
theorem extract_data2_pct_behavior_witness :
    extract (.obj [("data2_1", .arr [.obj [("categoryInt", .str "NE"),
        ("label", .str "abc")]])]) "data2_pct"
      = .ok (parsePyFloat (stripWs (removePct "abc".toList))) ∧
    extract (.obj [("data2_2", .arr [.null]), ("data2_1", .null)])
        "data2_pct"
      = extract (.obj [("data2_2", .arr [.null])]) "data2_pct" ∧
    extract (.obj [("data2_2", .null), ("data2_1", .null)]) "data2_pct"
      = extract (.obj [("data2_1", .null)]) "data2_pct" ∧
    data2_pct_loop [.obj [("categoryInt", .str "GE")]] = data2_pct_loop [] :=
  ⟨extract_data2_pct_behavior.1 "abc",
   extract_data2_pct_behavior.2.2.2.2.1 (.arr [.null]) .null rfl,
   extract_data2_pct_behavior.2.2.2.2.2.1 .null .null rfl,
   extract_data2_pct_behavior.2.2.2.2.2.2 (.obj [("categoryInt", .str "GE")])
     [] (.str "GE") rfl rfl⟩
